import Mathlib

/-!
Shallow embedding of the rustdoc "trait implementors" loader artifact
`src/trait.impl/core/fmt/trait.Debug.js`.

The artifact is an IIFE:
  (function() { var implementors = { ... };
    if (window.register_implementors) { window.register_implementors(implementors); }
    else { window.pending_implementors = implementors; } })()

We model the browser global object (`window`) as a record with the two slots
the loader touches plus an abstract remainder, JS values with their truthiness,
and the loader as a function instrumented with the registrar invocations and
pending-slot assignments it performs.  The semantics of the invocation
expression `window.register_implementors(implementors)` - an external,
possibly-throwing function supplied by the documentation browser - is a
parameter `call`.
-/

/-- One implementor entry: in the artifact, a JS array of strings
(each observed entry is a single-element array holding one HTML snippet). -/
abbrev ImplementorEntry : Type := List String

/-- The implementors map: a JS object literal mapping crate names to arrays of
entries, modelled as an insertion-ordered association list. -/
abbrev ImplementorMap : Type := List (String × List ImplementorEntry)

/-- A JavaScript value, as far as the loader can observe one:
the loader only branches on truthiness of `window.register_implementors`. -/
inductive JSValue : Type where
  | undefined : JSValue
  | null : JSValue
  | boolean : Bool → JSValue
  | number : Int → JSValue
  | string : String → JSValue
  | function : JSValue
deriving DecidableEq

/-- JavaScript truthiness, as evaluated by `if (window.register_implementors)`:
`undefined`, `null`, `false`, `0` and the empty string are falsy; any
function object is truthy. -/
def JSValue.truthy : JSValue → Bool
  | JSValue.undefined => false
  | JSValue.null => false
  | JSValue.boolean b => b
  | JSValue.number n => n != 0
  | JSValue.string s => !s.isEmpty
  | JSValue.function => true

/-- The browser global object: the two globally reachable locations the loader
reads or writes (`window.register_implementors`, `window.pending_implementors`)
plus `rest`, an abstract stand-in for every other piece of global state. -/
structure Window (α : Type) : Type where
  register_implementors : JSValue
  pending_implementors : Option ImplementorMap
  rest : α

/-- Everything observable about one run of the loader: the final global state,
the registrar invocations performed (in order, with their argument), the
assignments to `window.pending_implementors` performed (in order, with the
value assigned), and the run outcome (`Except.error` when the registrar
invocation threw, `Except.ok` otherwise). -/
structure LoadResult (ε α : Type) : Type where
  window : Window α
  calls : List ImplementorMap
  writes : List ImplementorMap
  result : Except ε Unit

def implementors : ImplementorMap := [
  ("mistralrs_core", [
    ["impl <a class=\"trait\" href=\"https://doc.rust-lang.org/1.76.0/core/fmt/trait.Debug.html\" title=\"trait core::fmt::Debug\">Debug</a> for <a class=\"struct\" href=\"mistralrs_core/struct.SamplingParams.html\" title=\"struct mistralrs_core::SamplingParams\">SamplingParams</a>"],
    ["impl <a class=\"trait\" href=\"https://doc.rust-lang.org/1.76.0/core/fmt/trait.Debug.html\" title=\"trait core::fmt::Debug\">Debug</a> for <a class=\"enum\" href=\"mistralrs_core/enum.StopTokens.html\" title=\"enum mistralrs_core::StopTokens\">StopTokens</a>"],
    ["impl <a class=\"trait\" href=\"https://doc.rust-lang.org/1.76.0/core/fmt/trait.Debug.html\" title=\"trait core::fmt::Debug\">Debug</a> for <a class=\"struct\" href=\"mistralrs_core/struct.ChatCompletionResponse.html\" title=\"struct mistralrs_core::ChatCompletionResponse\">ChatCompletionResponse</a>"],
    ["impl <a class=\"trait\" href=\"https://doc.rust-lang.org/1.76.0/core/fmt/trait.Debug.html\" title=\"trait core::fmt::Debug\">Debug</a> for <a class=\"struct\" href=\"mistralrs_core/struct.Request.html\" title=\"struct mistralrs_core::Request\">Request</a>"],
    ["impl <a class=\"trait\" href=\"https://doc.rust-lang.org/1.76.0/core/fmt/trait.Debug.html\" title=\"trait core::fmt::Debug\">Debug</a> for <a class=\"struct\" href=\"mistralrs_core/struct.ChatCompletionUsage.html\" title=\"struct mistralrs_core::ChatCompletionUsage\">ChatCompletionUsage</a>"]
  ]),
  ("mistralrs_lora", [
    ["impl <a class=\"trait\" href=\"https://doc.rust-lang.org/1.76.0/core/fmt/trait.Debug.html\" title=\"trait core::fmt::Debug\">Debug</a> for <a class=\"struct\" href=\"mistralrs_lora/struct.QLoraLinear.html\" title=\"struct mistralrs_lora::QLoraLinear\">QLoraLinear</a>"],
    ["impl <a class=\"trait\" href=\"https://doc.rust-lang.org/1.76.0/core/fmt/trait.Debug.html\" title=\"trait core::fmt::Debug\">Debug</a> for <a class=\"struct\" href=\"mistralrs_lora/struct.LoraConfig.html\" title=\"struct mistralrs_lora::LoraConfig\">LoraConfig</a>"],
    ["impl <a class=\"trait\" href=\"https://doc.rust-lang.org/1.76.0/core/fmt/trait.Debug.html\" title=\"trait core::fmt::Debug\">Debug</a> for <a class=\"struct\" href=\"mistralrs_lora/struct.LoraLinearConfig.html\" title=\"struct mistralrs_lora::LoraLinearConfig\">LoraLinearConfig</a>"],
    ["impl <a class=\"trait\" href=\"https://doc.rust-lang.org/1.76.0/core/fmt/trait.Debug.html\" title=\"trait core::fmt::Debug\">Debug</a> for <a class=\"struct\" href=\"mistralrs_lora/struct.Ordering.html\" title=\"struct mistralrs_lora::Ordering\">Ordering</a>"]
  ]),
  ("mistralrs_server", [
    ["impl <a class=\"trait\" href=\"https://doc.rust-lang.org/1.76.0/core/fmt/trait.Debug.html\" title=\"trait core::fmt::Debug\">Debug</a> for <a class=\"enum\" href=\"mistralrs_server/openai/enum.StopTokens.html\" title=\"enum mistralrs_server::openai::StopTokens\">StopTokens</a>"],
    ["impl <a class=\"trait\" href=\"https://doc.rust-lang.org/1.76.0/core/fmt/trait.Debug.html\" title=\"trait core::fmt::Debug\">Debug</a> for <a class=\"struct\" href=\"mistralrs_server/openai/struct.Message.html\" title=\"struct mistralrs_server::openai::Message\">Message</a>"],
    ["impl <a class=\"trait\" href=\"https://doc.rust-lang.org/1.76.0/core/fmt/trait.Debug.html\" title=\"trait core::fmt::Debug\">Debug</a> for <a class=\"enum\" href=\"mistralrs_server/enum.ModelSelected.html\" title=\"enum mistralrs_server::ModelSelected\">ModelSelected</a>"],
    ["impl <a class=\"trait\" href=\"https://doc.rust-lang.org/1.76.0/core/fmt/trait.Debug.html\" title=\"trait core::fmt::Debug\">Debug</a> for <a class=\"struct\" href=\"mistralrs_server/openai/struct.ChatCompletionRequest.html\" title=\"struct mistralrs_server::openai::ChatCompletionRequest\">ChatCompletionRequest</a>"]
  ])
]

/-- The body of the IIFE after the map is constructed, with the map `m` as a
parameter (the spec calls this `publish(map)`):
`if (window.register_implementors) { window.register_implementors(m); }
 else { window.pending_implementors = m; }`.
`call` gives the semantics of the external invocation expression
`window.register_implementors(m)` (including a TypeError outcome when the
truthy registrar value is not callable). -/
def publish {ε α : Type} (m : ImplementorMap) (call : ImplementorMap → Except ε Unit)
    (w : Window α) : LoadResult ε α :=
  if (w.register_implementors).truthy then
    { window := w, calls := [m], writes := [], result := call m }
  else
    { window := { w with pending_implementors := some m },
      calls := [], writes := [m], result := Except.ok () }

/-- One load of the artifact: construct the build-time literal `implementors`
and publish it. -/
def load {ε α : Type} (call : ImplementorMap → Except ε Unit) (w : Window α) :
    LoadResult ε α :=
  publish implementors call w

/-- The prefix shared by every entry string in the artifact: the HTML link
identifying the trait being implemented as `core::fmt::Debug`.  Used to state
the shape claim about the concrete map. -/
def debugTraitLink : String :=
  "impl <a class=\"trait\" href=\"https://doc.rust-lang.org/1.76.0/core/fmt/trait.Debug.html\" title=\"trait core::fmt::Debug\">Debug</a> for "

/-- A concrete window whose registrar slot holds a function object (truthy). -/
def windowWithRegistrar : Window Unit :=
  { register_implementors := JSValue.function, pending_implementors := none, rest := () }

/-- A concrete window whose registrar slot is unbound (`undefined`, falsy). -/
def windowNoRegistrar : Window Unit :=
  { register_implementors := JSValue.undefined, pending_implementors := none, rest := () }

/-- A concrete window whose registrar slot is bound to the falsy value `0`. -/
def windowFalsyRegistrar : Window Unit :=
  { register_implementors := JSValue.number 0, pending_implementors := none, rest := () }

/-- A registrar-invocation semantics that always returns normally. -/
def okCall : ImplementorMap → Except Unit Unit := fun _ => Except.ok ()

/-- A registrar-invocation semantics that always throws exception `7`. -/
def throwCall : ImplementorMap → Except Nat Unit := fun _ => Except.error 7

/-- Claim C1: when the registrar capability is truthy before the load, the load
invokes the registrar exactly once (within the load itself, i.e. synchronously),
with exactly the map constructed at load time, and the loader leaves the whole
global state - in particular `pending_implementors` - unmodified. -/
theorem c1_registrar_present {ε α : Type} (w : Window α)
    (call : ImplementorMap → Except ε Unit)
    (h : (w.register_implementors).truthy = true) :
    (load call w).calls = [implementors] ∧
    (load call w).window = w ∧
    (load call w).writes = [] := by
  simp [load, publish, h]

/-- Witness for C1 at a concrete window holding a function-valued registrar. -/
theorem c1_registrar_present_witness :
    (load okCall windowWithRegistrar).calls = [implementors] ∧
    (load okCall windowWithRegistrar).window = windowWithRegistrar ∧
    (load okCall windowWithRegistrar).writes = [] :=
  c1_registrar_present windowWithRegistrar okCall rfl

/-- Claim C2: when the registrar capability is falsy at load time, the load
stores exactly the map constructed at load time into
`window.pending_implementors` (the single assignment performed), no registrar
invocation occurs, and the registrar slot and the rest of the global state are
untouched.  (The registrar field consumed by the loader is the one named
`register_implementors`.) -/
theorem c2_registrar_absent {ε α : Type} (w : Window α)
    (call : ImplementorMap → Except ε Unit)
    (h : (w.register_implementors).truthy = false) :
    (load call w).window.pending_implementors = some implementors ∧
    (load call w).writes = [implementors] ∧
    (load call w).calls = [] ∧
    (load call w).window.register_implementors = w.register_implementors ∧
    (load call w).window.rest = w.rest := by
  simp [load, publish, h]

/-- Witness for C2 at a concrete window with an unbound registrar slot. -/
theorem c2_registrar_absent_witness :
    (load okCall windowNoRegistrar).window.pending_implementors = some implementors ∧
    (load okCall windowNoRegistrar).writes = [implementors] ∧
    (load okCall windowNoRegistrar).calls = [] ∧
    (load okCall windowNoRegistrar).window.register_implementors
      = windowNoRegistrar.register_implementors ∧
    (load okCall windowNoRegistrar).window.rest = windowNoRegistrar.rest :=
  c2_registrar_absent windowNoRegistrar okCall rfl

/-- Claim C3: every run of the loader affects exactly one of the two globally
reachable locations - either it invokes the registrar (and performs no
assignment, leaving the global state unchanged) or it assigns the pending slot
(performing no invocation, and changing nothing but the pending slot) - and it
never does both. -/
theorem c3_exactly_one_effect {ε α : Type} (w : Window α)
    (call : ImplementorMap → Except ε Unit) :
    (((load call w).calls = [implementors] ∧ (load call w).writes = [] ∧
        (load call w).window = w) ∨
      ((load call w).calls = [] ∧ (load call w).writes = [implementors] ∧
        (load call w).window.pending_implementors = some implementors ∧
        (load call w).window.register_implementors = w.register_implementors ∧
        (load call w).window.rest = w.rest)) ∧
    ¬((load call w).calls ≠ [] ∧ (load call w).writes ≠ []) := by
  by_cases h : (w.register_implementors).truthy <;>
    simp [load, publish, h]

/-- Claim C4: two sequential publishes of maps `m1` then `m2` against a window
with a falsy registrar leave the pending slot holding only `m2`: the second
assignment overwrites the first and no merging occurs. -/
theorem c4_second_write_overwrites {ε α : Type} (w : Window α)
    (m1 m2 : ImplementorMap) (f g : ImplementorMap → Except ε Unit)
    (h : (w.register_implementors).truthy = false) :
    (publish m2 g (publish m1 f w).window).window.pending_implementors
      = some m2 := by
  simp [publish, h]

/-- Witness for C4: two distinct concrete maps, the second survives. -/
theorem c4_second_write_overwrites_witness :
    (publish [("m2", [])] okCall
        (publish [("m1", [])] okCall windowNoRegistrar).window).window.pending_implementors
      = some [("m2", [])] :=
  c4_second_write_overwrites windowNoRegistrar [("m1", [])] [("m2", [])] okCall okCall rfl

/-- Claim C5: the loader surfaces no error of its own: whenever the external
registrar invocation returns normally the whole load returns normally, for
every state of the registrar slot; and when the registrar is absent (falsy) the
load returns normally regardless of any invocation semantics - absence is not
a failure. -/
theorem c5_no_error_paths {ε α : Type} (w : Window α)
    (call : ImplementorMap → Except ε Unit)
    (h : ∀ m : ImplementorMap, call m = Except.ok ()) :
    (load call w).result = Except.ok () ∧
    ((w.register_implementors).truthy = false →
      ∀ g : ImplementorMap → Except ε Unit, (load g w).result = Except.ok ()) := by
  refine ⟨?_, fun hf g => ?_⟩
  · by_cases ht : (w.register_implementors).truthy <;> simp [load, publish, ht, h]
  · simp [load, publish, hf]

/-- Witness for C5 at a concrete window with a well-behaved registrar. -/
theorem c5_no_error_paths_witness :
    (load okCall windowWithRegistrar).result = Except.ok () ∧
    ((windowWithRegistrar.register_implementors).truthy = false →
      ∀ g : ImplementorMap → Except Unit Unit,
        (load g windowWithRegistrar).result = Except.ok ()) :=
  c5_no_error_paths windowWithRegistrar okCall (fun _ => rfl)

/-- Claim C6: on every run the map handed off (through registrar invocations
and pending-slot assignments together) is exactly one map, and it is exactly
the literal constructed at load time - so the constructed map is handed off
exactly once and is never mutated between construction and handoff. -/
theorem c6_single_handoff {ε α : Type} (w : Window α)
    (call : ImplementorMap → Except ε Unit) :
    (load call w).calls ++ (load call w).writes = [implementors] := by
  by_cases h : (w.register_implementors).truthy <;>
    simp [load, publish, h]

/-- Claim C7: the loader takes no input: for any two runs, in any two global
environments and with any two registrar-invocation semantics, the maps handed
off are identical - the fixed build-time literal. -/
theorem c7_output_independent_of_environment {ε δ α β : Type}
    (w₁ : Window α) (w₂ : Window β)
    (f : ImplementorMap → Except ε Unit) (g : ImplementorMap → Except δ Unit) :
    (load f w₁).calls ++ (load f w₁).writes
      = (load g w₂).calls ++ (load g w₂).writes := by
  by_cases h₁ : (w₁.register_implementors).truthy <;>
    by_cases h₂ : (w₂.register_implementors).truthy <;>
      simp [load, publish, h₁, h₂]

/-- Claim C8: the concrete map built at load time has exactly the three keys
`mistralrs_core` (5 entries), `mistralrs_lora` (4 entries) and
`mistralrs_server` (4 entries), and every entry is a single-element list whose
one string links the trait `core::fmt::Debug` to a concrete implementing
type. -/
theorem c8_concrete_map_shape :
    implementors.map Prod.fst = ["mistralrs_core", "mistralrs_lora", "mistralrs_server"] ∧
    implementors.map (fun p => p.2.length) = [5, 4, 4] ∧
    implementors.all
      (fun p => p.2.all (fun e =>
        e.length == 1 &&
        e.all (fun s => (debugTraitLink.data).isPrefixOf s.data))) = true := by
  decide

/-- Claim C9: the presence test is a truthiness check, not an existence check:
whenever the registrar slot holds any of the bound-but-falsy values `null`,
`0`, `false` (or is `undefined`), the loader takes the deferred path - it
writes the pending slot and performs no invocation. -/
theorem c9_truthiness_not_existence {ε α : Type} (w : Window α)
    (call : ImplementorMap → Except ε Unit)
    (h : w.register_implementors ∈
      [JSValue.undefined, JSValue.null, JSValue.number 0, JSValue.boolean false,
        JSValue.string ""]) :
    (load call w).calls = [] ∧
    (load call w).window.pending_implementors = some implementors := by
  have ht : (w.register_implementors).truthy = false := by
    simp only [List.mem_cons, List.mem_singleton, List.not_mem_nil, or_false] at h
    rcases h with h | h | h | h | h <;> rw [h] <;> rfl
  simp [load, publish, ht]

/-- Witness for C9 at a window whose registrar slot is bound to the falsy
value `0`. -/
theorem c9_truthiness_not_existence_witness :
    (load okCall windowFalsyRegistrar).calls = [] ∧
    (load okCall windowFalsyRegistrar).window.pending_implementors
      = some implementors :=
  c9_truthiness_not_existence windowFalsyRegistrar okCall (by decide)

/-- Claim C10: when the registrar is truthy but its invocation throws, the load
propagates that exception as its outcome, performs no pending-slot assignment,
does not fall back to the deferred path, and leaves the global state exactly as
it was. -/
theorem c10_exception_propagates {ε α : Type} (w : Window α)
    (call : ImplementorMap → Except ε Unit) (exc : ε)
    (h : (w.register_implementors).truthy = true)
    (he : call implementors = Except.error exc) :
    (load call w).result = Except.error exc ∧
    (load call w).writes = [] ∧
    (load call w).window = w := by
  simp [load, publish, h, he]

/-- Witness for C10 at a concrete window with a throwing registrar. -/
theorem c10_exception_propagates_witness :
    (load throwCall windowWithRegistrar).result = Except.error 7 ∧
    (load throwCall windowWithRegistrar).writes = [] ∧
    (load throwCall windowWithRegistrar).window = windowWithRegistrar :=
  c10_exception_propagates windowWithRegistrar throwCall 7 rfl rfl
